import Mathlib

/-!
# Verification of the Rust-coemu core against its specification

This file gives a shallow embedding, in Lean 4, of the parts of the
`Rust-coemu` game-server repository that the specification's claims talk
about, together with theorems settling each claim.

Conventions of the embedding:
* Rust machine integers are modelled as `Nat` with explicit reduction
  `% 2^w` at the operations where wrap-around matters
  (`wrapping_sub`, `rotate_right`, little-endian (de)serialisation).
* Byte buffers are `List Nat`, every element `< 256` where it matters.
* Fallible or panicking code returns `Option`.
* Stateful code is modelled by explicit state passing: each Rust method
  that mutates `self` becomes a Lean function returning the new state.
* Code of the repository that is referenced but not part of the sources
  (the `tq_math` helper crate, the database layer, the `MsgTalk` packet
  constructors, the token store) is modelled from the specification; each
  such definition carries a doc comment starting `Modelled from the spec:`.
-/

namespace Coemu

/-! ## RC5 cipher (`src/crypto/src/rc5.rs`)

The `TQRC5` struct holds `rounds : u8` and a 26-word key schedule
`sub : [u32; 26]`, initialised from the constant `SUB_KEY_SEED`.
-/

/-- The fixed 26-word key schedule constant `SUB_KEY_SEED`. -/
def SUB_KEY_SEED : List Nat :=
  [0xA9915556, 0x48E44110, 0x9F32308F, 0x27F41D3E, 0xCF4F3523,
   0xEAC3C6B4, 0xE9EA5E03, 0xE5974BBA, 0x334D7692, 0x2C6BCF2E,
   0x0DC53B74, 0x995C92A6, 0x7E4F6D77, 0x1EB2B79F, 0x1D348D89,
   0xED641354, 0x15E04A9D, 0x488DA159, 0x647817D3, 0x8CA0BC20,
   0x9264F7FE, 0x91E78C6C, 0x5C9A07FB, 0xABD4DCCE, 0x6416F98D,
   0x6642AB5B]

/-- The `TQRC5` cipher state: `rounds` and the 26-word subkey table. -/
structure TQRC5 where
  rounds : Nat
  sub : List Nat
deriving Repr, DecidableEq

/-- `TQRC5::new()`: 12 rounds, subkeys = `SUB_KEY_SEED`. -/
def TQRC5.new : TQRC5 := { rounds := 12, sub := SUB_KEY_SEED }

/-- `u32::wrapping_sub`: subtraction modulo `2^32` on values `< 2^32`. -/
def wsub32 (a b : Nat) : Nat := (a + (4294967296 - b % 4294967296)) % 4294967296

/-- `u32::rotate_right(self, n)`: Rust rotates by `n % 32`. -/
def rotr32 (x n : Nat) : Nat :=
  let r := n % 32
  ((x % 4294967296) >>> r ||| (x % 4294967296) <<< (32 - r)) % 4294967296

/-- Little-endian `u32` from four bytes (`bytes::Buf::get_u32_le`). -/
def le32 (b0 b1 b2 b3 : Nat) : Nat :=
  b0 % 256 + 256 * (b1 % 256) + 65536 * (b2 % 256) + 16777216 * (b3 % 256)

/-- A `u32` back to four little-endian bytes (`bytes::BufMut::put_u32_le`). -/
def toLE32 (x : Nat) : List Nat :=
  [x % 256, x / 256 % 256, x / 65536 % 256, x / 16777216 % 256]

/-- One inner round-loop body of `TQRC5::decrypt`, for round index `r`:
`b = (b.wrapping_sub(sub[2r+1])).rotate_right(a) ^ a;`
`a = (a.wrapping_sub(sub[2r])).rotate_right(b) ^ b`. -/
def rc5Round (sub : List Nat) (r : Nat) (ab : Nat × Nat) : Nat × Nat :=
  let b := rotr32 (wsub32 ab.2 (sub.getD (2 * r + 1) 0)) ab.1 ^^^ ab.1
  let a := rotr32 (wsub32 ab.1 (sub.getD (2 * r) 0)) b ^^^ b
  (a, b)

/-- The per-8-byte-block work of `TQRC5::decrypt`: run the rounds from
`rounds` down to `1`, then subtract `sub[0]` from `a` and `sub[1]` from
`b`. -/
def rc5DecryptBlock (c : TQRC5) (a b : Nat) : Nat × Nat :=
  let ab := (List.range c.rounds).foldl
    (fun ab i => rc5Round c.sub (c.rounds - i) ab) (a, b)
  (wsub32 ab.1 (c.sub.getD 0 0), wsub32 ab.2 (c.sub.getD 1 0))

/-- `TQRC5::decrypt(src, dst)`: the buffer is copied and then each 8-byte
block is decrypted in place; a source whose length is not a multiple of 8
makes the Rust code read past the end of a 4-byte chunk and panic, which
the embedding models as `none`. -/
def TQRC5.decrypt (c : TQRC5) : List Nat → Option (List Nat)
  | [] => some []
  | b0 :: b1 :: b2 :: b3 :: b4 :: b5 :: b6 :: b7 :: rest =>
    match c.decrypt rest with
    | some tail =>
      let ab := rc5DecryptBlock c (le32 b0 b1 b2 b3) (le32 b4 b5 b6 b7)
      some (toLE32 ab.1 ++ toLE32 ab.2 ++ tail)
    | none => none
  | _ => none

/-- `TQRC5::encrypt(&mut self, _src, _dst) {}` — an empty body: the
destination buffer is left exactly as it was. -/
def TQRC5.encrypt (_c : TQRC5) (_src dst : List Nat) : List Nat := dst

/-- `TQRC5::generate_keys(&mut self, _key1, _key2) {}` — a no-op. -/
def TQRC5.generateKeys (c : TQRC5) (_key1 _key2 : Nat) : TQRC5 := c

/-! ## Actor mailbox and writer loop
(`src/core/network/src/actor.rs`, `src/network/src/server.rs`,
`src/crates/network/src/server.rs`)

The per-connection actor holds the sender half of one bounded FIFO
channel of `Message`s; the writer task (`handle_msg`) drains the channel
serially. The FIFO channel is modelled as the list of messages in the
order they were enqueued.
-/

/-- `Message`: the actor-mailbox tagged union. -/
inductive Message where
  | generateKeys (key1 key2 : Nat)
  | packet (id : Nat) (bytes : List Nat)
  | shutdown
deriving Repr, DecidableEq

/-- The actor's view used by the claims: the FIFO queue of messages it
has enqueued, in order. -/
structure Actor where
  queue : List Message
deriving Repr, DecidableEq

/-- `Actor::send(packet)`: encode to `(id, bytes)` and enqueue
`Message::Packet(id, bytes)` on the FIFO channel. -/
def Actor.send (a : Actor) (id : Nat) (bytes : List Nat) : Actor :=
  { a with queue := a.queue ++ [Message.packet id bytes] }

/-- `Actor::generate_keys(key1, key2)`: enqueue
`Message::GenerateKeys(key1, key2)` on the same FIFO channel. -/
def Actor.generateKeys (a : Actor) (key1 key2 : Nat) : Actor :=
  { a with queue := a.queue ++ [Message.generateKeys key1 key2] }

/-- `Actor::shutdown()`: enqueue `Message::Shutdown`. -/
def Actor.shutdown (a : Actor) : Actor :=
  { a with queue := a.queue ++ [Message.shutdown] }

/-- An observable step of the writer task, in wire order. -/
inductive WireEvent where
  | wrote (id : Nat) (bytes : List Nat)
  | rekeyed (key1 key2 : Nat)
  | closed
deriving Repr, DecidableEq

/-- The writer task `handle_msg`: dequeue messages serially; a `Packet`
is encoded+encrypted+written, `GenerateKeys` rekeys the shared cipher,
`Shutdown` closes the write half and breaks; when the channel is
exhausted the encoder is closed. -/
def handleMsg : List Message → List WireEvent
  | [] => [WireEvent.closed]
  | Message.packet id bytes :: rest => WireEvent.wrote id bytes :: handleMsg rest
  | Message.generateKeys k1 k2 :: rest =>
    WireEvent.rekeyed k1 k2 :: handleMsg rest
  | Message.shutdown :: _ => [WireEvent.closed, WireEvent.closed]

/-! ## Packet handlers (`src/auth-server/src/main.rs`,
`src/game-server/src/main.rs`)

Each process converts the inbound `u16` id with `id.into()` to its
`PacketType` enumeration; a `u16` that is not one of the recognised
discriminants lands in the catch-all variant. The enumerations below
mirror the `match` arms of each `Handler::handle`. The typed
`decode`/`process` bodies for recognised kinds are not part of the
claims; they are taken as a parameter `procKnown` so that the handlers
stay faithful to the `match` structure. -/

/-- The auth process's packet kinds: it recognises `MsgAccount` only. -/
inductive AuthPacketType where
  | msgAccount
  | unknown (id : Nat)
deriving Repr, DecidableEq

/-- The game process's packet kinds recognised by its handler. -/
inductive GamePacketType where
  | msgConnect
  | msgTalk
  | msgAction
  | msgItem
  | unknown (id : Nat)
deriving Repr, DecidableEq

/-- A handler invocation's outcome: the messages it enqueued on the
actor's channel and its `Result`. -/
structure HandlerOutcome (E : Type) where
  enqueued : List Message
  result : Except E Unit

/-- The auth `Handler::handle`: a recognised `MsgAccount` is decoded,
processed and followed by `actor.shutdown()` (behaviour `procKnown`,
which includes that shutdown); an unrecognised id is logged with
`warn!`, `actor.shutdown()` is enqueued, and the handler returns
`Ok(())`. -/
def authHandle {E : Type} (procKnown : HandlerOutcome E)
    (pt : AuthPacketType) : HandlerOutcome E :=
  match pt with
  | AuthPacketType.msgAccount => procKnown
  | AuthPacketType.unknown _ =>
    { enqueued := [Message.shutdown], result := Except.ok () }

/-- The game `Handler::handle`: recognised kinds are decoded and
processed (`procKnown`); an unrecognised id is logged with `warn!` and
the handler returns `Ok(())` without enqueuing anything. -/
def gameHandle {E : Type} (procKnown : GamePacketType → HandlerOutcome E)
    (pt : GamePacketType) : HandlerOutcome E :=
  match pt with
  | GamePacketType.unknown _ => { enqueued := [], result := Except.ok () }
  | known => procKnown known

/-- The reader loop of `handle_stream` (`src/network/src/server.rs`):
packets are handled serially; when the handler returns `Err` the loop
logs and breaks, otherwise it continues with the next packet. Returns
the list of packets that were handed to the handler. -/
def handleStreamLoop {P E : Type} (handle : P → Except E Unit) :
    List P → List P
  | [] => []
  | p :: rest =>
    match handle p with
    | Except.ok _ => p :: handleStreamLoop handle rest
    | Except.error _ => [p]

/-! ## World: Map, Floor, Region (`src/server/game/src/world/map.rs`)

`SCREEN_DISTANCE` and `ELEVATION_TOLERANCE` live in the `tq_math`
crate, which is not among the sources; the spec gives no numeric value
for either, so both are kept as explicit parameters (`S`, `tol`). -/

/-- Modelled from the spec: a tile of the floor grid,
`(access: bool, elevation: i16, …)` (the `systems::Tile` type is not
among the sources). -/
structure Tile where
  access : Bool
  elevation : Int
deriving Repr, DecidableEq

/-- Modelled from the spec: the lazily-loaded `systems::Floor` (not
among the sources): a 2D tile grid with boundaries and a `loaded` flag;
`load()` populates the grid from the flat file, `unload()` drops it,
`tile(x, y)` returns the tile when the floor is loaded and `(x, y)` is
on the grid. The grid contents are carried as `tiles` so that `load`
is the flag flip. -/
structure Floor where
  loaded : Bool
  width : Nat
  height : Nat
  tiles : Nat → Nat → Option Tile

/-- `Floor::tile(x, y)`: `none` when unloaded or off the grid. -/
def Floor.tile (f : Floor) (x y : Nat) : Option Tile :=
  if f.loaded then f.tiles x y else none

/-- A map region: equality is by `start_point` (in region-grid
coordinates); it carries its own character registry (by id). -/
structure MapRegion where
  startPoint : Nat × Nat
  characters : List Nat
deriving Repr, DecidableEq

/-- `MapRegion::new(start_point)`. -/
def MapRegion.new (p : Nat × Nat) : MapRegion :=
  { startPoint := p, characters := [] }

/-- A character as the map's registries see it; only the id key matters
for the claims. -/
structure Character where
  id : Nat
deriving Repr, DecidableEq

/-- The mutable state of one `Map`: its floor, its character registry
(`HashMap<u32, Character>` modelled as an association list with unique
keys via insert-replace) and the flat region vector. -/
structure MapState where
  floor : Floor
  characters : List (Nat × Character)
  regions : List MapRegion

/-- `HashMap::insert`: replace any existing entry for the key, else
append. -/
def assocInsert (k : Nat) (v : Character) (l : List (Nat × Character)) :
    List (Nat × Character) :=
  if l.any (fun e => e.1 = k) then
    l.map (fun e => if e.1 = k then (k, v) else e)
  else l ++ [(k, v)]

/-- `HashMap::remove`. -/
def assocRemove (k : Nat) (l : List (Nat × Character)) :
    List (Nat × Character) :=
  l.filter (fun e => e.1 ≠ k)

/-- `Map::loaded()`: the floor's flag. -/
def MapState.loaded (m : MapState) : Bool := m.floor.loaded

/-- `Map::region(x, y)` with region edge `S` (`MapRegion::SIZE`):
`region_x = x / S`, `region_y = y / S`,
`region_index = region_x * region_size.width + region_y`
(note: the multiplier in the source is `region_size.width`, i.e. `S`),
then `regions.get(region_index)`. -/
def MapState.region (S : Nat) (m : MapState) (x y : Nat) : Option MapRegion :=
  let regionX := x / S
  let regionY := y / S
  let regionIndex := regionX * S + regionY
  m.regions.get? regionIndex

/-- Ceiling division; the source computes
`(size as f32 / S as f32).ceil() as u32`, which agrees with exact
ceiling division for all map sizes a `u16` tile coordinate allows. -/
def ceilDiv (a b : Nat) : Nat := (a + b - 1) / b

/-- `Map::load()`: load the floor, then build the region vector by
pushing `MapRegion::new(Point::new(x, y))` for `y in 0..height`
(outer) and `x in 0..width` (inner), where
`height = ceil(map_height / S)` and `width = ceil(map_width / S)`; so
the region with grid coordinates `(x, y)` lands at flat index
`y * width + x`. -/
def MapState.load (S : Nat) (m : MapState) : MapState :=
  let height := ceilDiv m.floor.height S
  let width := ceilDiv m.floor.width S
  let regions := (List.range height).flatMap
    (fun y => (List.range width).map (fun x => MapRegion.new (x, y)))
  { m with floor := { m.floor with loaded := true }, regions := regions }

/-- `Map::unload()`: unload the floor and clear the region vector. -/
def MapState.unload (m : MapState) : MapState :=
  { m with floor := { m.floor with loaded := false }, regions := [] }

/-- `Map::insert_character(me)`: the branch removing `me` from its
previous map acts on that other `Map` value and does not change this
one; then, if this map is not loaded, `load()` it; finally insert into
the character registry keyed by `me.id()` (the `set_map` call updates
the actor-side handle only). -/
def MapState.insertCharacter (S : Nat) (m : MapState) (me : Character) :
    MapState :=
  let m := if !m.loaded then m.load S else m
  { m with characters := assocInsert me.id me m.characters }

/-- `Map::remove_character(id)`: remove from the character registry
(the screen fan-out is network-side only); then, if the registry is now
empty, `unload()`. -/
def MapState.removeCharacter (m : MapState) (id : Nat) : MapState :=
  let m := { m with characters := assocRemove id m.characters }
  if m.characters.isEmpty then m.unload else m

/-! ### Elevation sampling -/

/-- Modelled from the spec: `tq_math::get_distance` (crate not among
the sources) is the Chebyshev distance, the step count of the walk. -/
def getDistance (a b : Nat × Nat) : Nat :=
  max ((b.1 : Int) - (a.1 : Int)).natAbs ((b.2 : Int) - (a.2 : Int)).natAbs

/-- Modelled from the spec: `tq_math::delta` — the coordinate
differences used by the integer interpolation. -/
def delta (a b : Nat × Nat) : Int × Int :=
  ((b.1 : Int) - (a.1 : Int), (b.2 : Int) - (a.2 : Int))

/-- Modelled from the spec: `tq_math::within_elevation` —
`|tile.elevation − elevation| ≤ ELEVATION_TOLERANCE` (`tol`). -/
def withinElevation (tol : Nat) (tileElevation elevation : Int) : Bool :=
  (tileElevation - elevation).natAbs ≤ tol

/-- `Floor::tile` at interpolated (possibly negative) coordinates:
negative coordinates are off the grid. -/
def Floor.tileAt (f : Floor) (x y : Int) : Option Tile :=
  if x < 0 ∨ y < 0 then none else f.tile x.toNat y.toNat

/-- The interpolated sample point for step `i` of the walk from
`start` with differences `d` over `distance` steps. -/
def samplePoint (start : Nat × Nat) (d : Int × Int) (distance : Nat)
    (i : Nat) : Int × Int :=
  ((start.1 : Int) + (i : Int) * d.1 / (distance : Int),
   (start.2 : Int) + (i : Int) * d.2 / (distance : Int))

/-- The loop body of `sample_elevation` at one sampled point: the tile
must exist and be within the elevation tolerance. -/
def sampleOk (tol : Nat) (f : Floor) (elevation : Int) (p : Int × Int) : Bool :=
  match f.tileAt p.1 p.2 with
  | some tile => withinElevation tol tile.elevation elevation
  | none => false

/-- `Map::sample_elevation(start, end, elevation)`: distance 0 returns
`true`; otherwise every step `i in 0..distance` samples the
interpolated `(x, y)` and requires an existing tile within the
elevation tolerance. -/
def MapState.sampleElevation (tol : Nat) (m : MapState)
    (start stop : Nat × Nat) (elevation : Int) : Bool :=
  let distance := getDistance start stop
  if distance = 0 then true
  else
    let d := delta start stop
    (List.range distance).all (fun i =>
      sampleOk tol m.floor elevation (samplePoint start d distance i))

/-! ## ActorState (`src/server/game/src/state/actor_state.rs`)

The game-side actor state holds two `ArcSwapOption` cells. A getter
built on `.load().clone().expect("state is not empty")` panics when the
cell is empty; the embedding renders a panicking outcome as `none`. -/

/-- Modelled from the spec: the per-character `systems::Screen` (not
among the sources) — the set of observer character ids. -/
structure Screen where
  observers : List Nat
deriving Repr, DecidableEq

/-- The error variants the `try_` accessors return. -/
inductive StateError where
  | characterNotFound
  | screenNotFound
deriving Repr, DecidableEq

/-- The two `ArcSwapOption` cells of `ActorState`. -/
structure ActorState where
  characterSlot : Option Character
  screenSlot : Option Screen
deriving Repr, DecidableEq

/-- `ActorState::init()`: both cells empty. -/
def ActorState.init : ActorState :=
  { characterSlot := none, screenSlot := none }

/-- `ActorState::set_character`: store into the cell. -/
def ActorState.setCharacter (s : ActorState) (c : Character) : ActorState :=
  { s with characterSlot := some c }

/-- `ActorState::set_screen`: store into the cell, then call
`self.character().set_screen(screen)` — which panics (`none`) when the
character cell is still empty. -/
def ActorState.setScreen (s : ActorState) (sc : Screen) : Option ActorState :=
  let s := { s with screenSlot := some sc }
  match s.characterSlot with
  | some _ => some s
  | none => none

/-- `ActorState::character()`: `expect` on the cell — `none` models the
panic on an empty cell. -/
def ActorState.character (s : ActorState) : Option Character := s.characterSlot

/-- `ActorState::try_character()`. -/
def ActorState.tryCharacter (s : ActorState) : Except StateError Character :=
  match s.characterSlot with
  | some c => Except.ok c
  | none => Except.error StateError.characterNotFound

/-- `ActorState::screen()`: `expect` on the cell — `none` models the
panic on an empty cell. -/
def ActorState.screen (s : ActorState) : Option Screen := s.screenSlot

/-- `ActorState::try_screen()`. -/
def ActorState.tryScreen (s : ActorState) : Except StateError Screen :=
  match s.screenSlot with
  | some sc => Except.ok sc
  | none => Except.error StateError.screenNotFound

/-! ## Registration (`src/server/game/src/packets/msg_register.rs`)

`MsgRegister::process` talks to the token store
(`state.token_store().remove_creation_token`), the database
(`Character::name_taken`, `save`, `by_id`) and the maps registry; those
collaborators are not among the sources and are modelled from the spec
as one explicit `GameState`. The control flow and the literal field
values of `build_character` are taken from the source. -/

/-- The `MsgRegister` packet fields (the password stays opaque). -/
structure MsgRegister where
  username : String
  characterName : String
  password : List Nat
  mesh : Nat
  charClass : Nat
  token : Nat

/-- `BodyType::try_from(mesh)` succeeds exactly on the four
discriminants 1003, 1004, 2001, 2002. -/
def bodyTypeValid (mesh : Nat) : Bool :=
  mesh = 1003 || mesh = 1004 || mesh = 2001 || mesh = 2002

/-- `BaseClass::try_from(class)` succeeds exactly on the four
discriminants 10, 20, 40, 100. -/
def baseClassValid (c : Nat) : Bool :=
  c = 10 || c = 20 || c = 40 || c = 100

/-- Modelled from the spec: the `tq_db::character::Character` row (the
`tq_db` crate is not among the sources); the fields are the ones
`build_character` assigns. -/
structure DbCharacter where
  accountId : Nat
  realmId : Nat
  name : String
  mesh : Nat
  avatar : Nat
  hairStyle : Nat
  silver : Nat
  cps : Nat
  currentClass : Nat
  mapId : Nat
  x : Nat
  y : Nat
  virtue : Nat
  strength : Nat
  agility : Nat
  vitality : Nat
  spirit : Nat
  healthPoints : Nat
  manaPoints : Nat
deriving Repr, DecidableEq

/-- `MsgRegister::build_character`: the two `rand` draws (avatar and
hair style) are taken as parameters `rngAvatar`, `rngHair`; every other
field is the source's literal. -/
def MsgRegister.buildCharacter (msg : MsgRegister) (accountId realmId : Nat)
    (rngAvatar rngHair : Nat) : DbCharacter :=
  let strength := if msg.charClass = 100 then 2 else 4
  let agility := 6
  let vitality := 12
  let spirit := if msg.charClass = 100 then 10 else 0
  let healthPoints := strength * 3 + agility * 3 + spirit * 3 + vitality * 24
  let manaPoints := spirit * 5
  { accountId := accountId
    realmId := realmId
    name := msg.characterName
    mesh := msg.mesh
    avatar := rngAvatar
    hairStyle := rngHair
    silver := 1000
    cps := 0
    currentClass := msg.charClass
    mapId := 1010
    x := 61
    y := 109
    virtue := 0
    strength := strength
    agility := agility
    vitality := vitality
    spirit := spirit
    healthPoints := healthPoints
    manaPoints := manaPoints }

/-- Modelled from the spec: the `MsgTalk` reply constructors used by
registration (`MsgTalk` is not among the sources). -/
inductive MsgTalkKind where
  | registerOk
  | registerNameTaken
  | registerInvalid
deriving Repr, DecidableEq

/-- Modelled from the spec: the game-process shared state the
registration path touches — the creation-token map
(`u32 → (account_id, realm_id)`), the database's view of taken names
and persisted rows, and the ids present in the maps registry. -/
structure GameState where
  creationTokens : List (Nat × (Nat × Nat))
  takenNames : List String
  saved : List DbCharacter
  maps : List Nat

/-- The state after deleting creation token `t`. -/
def GameState.withTokenRemoved (st : GameState) (t : Nat) : GameState :=
  { st with creationTokens := st.creationTokens.filter (fun e => e.1 ≠ t) }

/-- Modelled from the spec: `remove_creation_token` — `remove` is the
only consuming operation: it returns the entry and deletes the key. -/
def GameState.removeCreationToken (st : GameState) (t : Nat) :
    Option (Nat × Nat) × GameState :=
  ((st.creationTokens.find? (fun e => e.1 = t)).map Prod.snd,
   st.withTokenRemoved t)

/-- Modelled from the spec: `Character::name_taken` queries the
database. -/
def GameState.nameTaken (st : GameState) (n : String) : Bool :=
  st.takenNames.contains n

/-- Modelled from the spec: `Character::save` persists the row (making
its name taken) and returns the new row id. -/
def GameState.save (st : GameState) (c : DbCharacter) : Nat × GameState :=
  (st.saved.length + 1,
   { st with saved := st.saved ++ [c],
             takenNames := st.takenNames ++ [c.name] })

/-- `MsgRegister::process`: consume the creation token (`register_invalid`
when absent); reject a taken name (`register_name_taken`); validate mesh
and class (`register_invalid`); build and save the character; look the
character's map up in the registry (`register_invalid` when absent —
insertion into the world and the screen follow); reply `register_ok`.
An `Err` outcome is the error packet the dispatcher sends back. -/
def MsgRegister.process (msg : MsgRegister) (rngAvatar rngHair : Nat)
    (st : GameState) : GameState × Except MsgTalkKind MsgTalkKind :=
  let (info, st) := st.removeCreationToken msg.token
  match info with
  | none => (st, Except.error MsgTalkKind.registerInvalid)
  | some (accountId, realmId) =>
    if st.nameTaken msg.characterName then
      (st, Except.error MsgTalkKind.registerNameTaken)
    else if !bodyTypeValid msg.mesh then
      (st, Except.error MsgTalkKind.registerInvalid)
    else if !baseClassValid msg.charClass then
      (st, Except.error MsgTalkKind.registerInvalid)
    else
      let c := msg.buildCharacter accountId realmId rngAvatar rngHair
      let (_, st) := st.save c
      if st.maps.contains c.mapId then
        (st, Except.ok MsgTalkKind.registerOk)
      else (st, Except.error MsgTalkKind.registerInvalid)

/-! ## Theorems -/

/-- Helper for the cipher length property: on a source whose length is a
multiple of 8, `TQRC5::decrypt` succeeds and preserves the length. -/
theorem TQRC5.decrypt_length (c : TQRC5) :
    ∀ src : List Nat, src.length % 8 = 0 →
      ∃ out, c.decrypt src = some out ∧ out.length = src.length := by
  intro src
  induction src using TQRC5.decrypt.induct c with
  | case1 => exact fun _ => ⟨[], rfl, rfl⟩
  | case2 b0 b1 b2 b3 b4 b5 b6 b7 rest tail hrest ih =>
    intro h
    have hr : rest.length % 8 = 0 := by simp at h; omega
    obtain ⟨out, hout, hlen⟩ := ih hr
    rw [hout] at hrest
    cases hrest
    refine ⟨toLE32 (rc5DecryptBlock c (le32 b0 b1 b2 b3) (le32 b4 b5 b6 b7)).1 ++
        toLE32 (rc5DecryptBlock c (le32 b0 b1 b2 b3) (le32 b4 b5 b6 b7)).2 ++
        tail, ?_, ?_⟩
    · simp [TQRC5.decrypt, hout]
    · simp [toLE32, hlen]
  | case3 b0 b1 b2 b3 b4 b5 b6 b7 rest hrest ih =>
    intro h
    have hr : rest.length % 8 = 0 := by simp at h; omega
    obtain ⟨out, hout, -⟩ := ih hr
    rw [hout] at hrest
    cases hrest
  | case4 t h1 h2 =>
    intro h
    rcases t with - | ⟨a1, - | ⟨a2, - | ⟨a3, - | ⟨a4, - | ⟨a5, - |
      ⟨a6, - | ⟨a7, - | ⟨a8, rest⟩⟩⟩⟩⟩⟩⟩⟩
    · exact absurd rfl h1
    all_goals first
      | (exact absurd rfl (h2 a1 a2 a3 a4 a5 a6 a7 a8 rest))
      | (simp at h)

/-- C8: with the fixed 26-word key schedule `SUB_KEY_SEED` and 12
rounds, `TQRC5::decrypt` maps the 16 ciphertext bytes
`1C FD 41 C9 A1 69 AA B6 0D A6 08 4D F3 67 EB 73` to the 16 plaintext
bytes `31 00 … 00`. -/
theorem c8_rc5_decrypt_vector :
    TQRC5.new.decrypt
      [0x1C, 0xFD, 0x41, 0xC9, 0xA1, 0x69, 0xAA, 0xB6,
       0x0D, 0xA6, 0x08, 0x4D, 0xF3, 0x67, 0xEB, 0x73] =
      some (0x31 :: List.replicate 15 0) := by decide

/-- C5, counterexample: for `TQRC5`, `decrypt` is not a left inverse of
`encrypt`. `TQRC5::encrypt` has an empty body, so encrypting the 16-byte
plaintext `31 00 … 00` into a fresh zeroed destination buffer leaves
that buffer all zero, and decrypting it does not give the plaintext
back. -/
theorem c5_roundtrip_fails_for_tqrc5 :
    TQRC5.new.decrypt
        (TQRC5.new.encrypt (0x31 :: List.replicate 15 0)
          (List.replicate 16 0)) ≠
      some (0x31 :: List.replicate 15 0) := by decide

/-- C5, amended: for `TQRC5` (the only `Cipher` implementation among
the sources), `encrypt` and `decrypt` are length-preserving — `encrypt`
returns the destination buffer unchanged, and `decrypt` of a source
whose length is a multiple of 8 (other lengths panic) succeeds with a
result of the source's length — but `decrypt` is not a left inverse of
`encrypt`, because `TQRC5::encrypt` is an unimplemented no-op stub. -/
theorem c5_tqrc5_length_preserving (c : TQRC5) (src dst : List Nat)
    (h : src.length % 8 = 0) :
    (c.encrypt src dst).length = dst.length ∧
      ∃ out, c.decrypt src = some out ∧ out.length = src.length :=
  ⟨rfl, c.decrypt_length src h⟩

/-- C5, witness: the amended theorem applied to the all-zero 16-byte
buffer. -/
theorem c5_tqrc5_length_preserving_witness :
    (TQRC5.new.encrypt (List.replicate 16 0)
        (List.replicate 16 0)).length = (List.replicate 16 0).length ∧
      ∃ out, TQRC5.new.decrypt (List.replicate 16 0) = some out ∧
        out.length = (List.replicate 16 0).length :=
  c5_tqrc5_length_preserving TQRC5.new (List.replicate 16 0)
    (List.replicate 16 0) (by decide)

/-- C6: enqueuing `send(A); send(B); generate_keys(k); send(C)` on an
actor's FIFO channel and draining it with the writer loop `handle_msg`
yields exactly `A`, `B`, the rekey, `C` on the wire, in that order,
followed by the close of the exhausted channel. -/
theorem c6_send_rekey_send_order (aId bId cId : Nat)
    (aBytes bBytes cBytes : List Nat) (k1 k2 : Nat) :
    handleMsg (((((Actor.mk []).send aId aBytes).send bId bBytes).generateKeys
        k1 k2).send cId cBytes).queue =
      [WireEvent.wrote aId aBytes, WireEvent.wrote bId bBytes,
       WireEvent.rekeyed k1 k2, WireEvent.wrote cId cBytes,
       WireEvent.closed] := rfl

/-- C7: an inbound packet whose id is not a recognised kind makes the
game handler return `Ok` with nothing enqueued — so the reader loop
goes on to the packets after it — while the auth handler enqueues
`Shutdown` (and also returns `Ok`), which makes the writer close the
connection's write half. -/
theorem c7_unknown_packet_policy {E : Type} (procA : HandlerOutcome E)
    (procG : GamePacketType → HandlerOutcome E) (id : Nat)
    (rest : List GamePacketType) :
    (gameHandle procG (GamePacketType.unknown id)).result = Except.ok () ∧
    (gameHandle procG (GamePacketType.unknown id)).enqueued = [] ∧
    handleStreamLoop (fun pt => (gameHandle procG pt).result)
        (GamePacketType.unknown id :: rest) =
      GamePacketType.unknown id ::
        handleStreamLoop (fun pt => (gameHandle procG pt).result) rest ∧
    (authHandle procA (AuthPacketType.unknown id)).result = Except.ok () ∧
    (authHandle procA (AuthPacketType.unknown id)).enqueued =
      [Message.shutdown] ∧
    handleMsg (authHandle procA (AuthPacketType.unknown id)).enqueued =
      [WireEvent.closed, WireEvent.closed] :=
  ⟨rfl, rfl, rfl, rfl, rfl, rfl⟩

/-- A 100×100-tile map (all tiles flat and walkable) whose region grid,
with `SCREEN_DISTANCE = 18`, is 6 regions wide: `ceil(100/18) = 6`. -/
def regionTestMap : MapState :=
  { floor :=
      { loaded := false, width := 100, height := 100,
        tiles := fun _ _ => some { access := true, elevation := 0 } },
    characters := [], regions := [] }

/-- C1: the lookup `Map::region(x, y)` does not agree with the layout
`Map::load` builds. On the 100×100 map with `SCREEN_DISTANCE = 18`,
tile `(20, 0)` lies in the region with grid coordinates
`(region_x, region_y) = (20/18, 0/18) = (1, 0)`, which the loader
placed at flat index `region_y * width_in_regions + region_x = 1`; but
the lookup computes `region_x * SCREEN_DISTANCE + region_y = 18`
(multiplying by `region_size.width`, the region's edge in tiles, not
by the number of regions per row) and returns the region `(0, 3)`.
Even the claim's formula `region_x * width_in_regions + region_y = 6`
would pick the region `(0, 1)`: index and layout disagree. -/
theorem c1_region_lookup_mismatch :
    (((regionTestMap.load 18).region 18 20 0).map MapRegion.startPoint =
        some (0, 3)) ∧
      (20 / 18, 0 / 18) = ((1 : Nat), (0 : Nat)) ∧
      ceilDiv 100 18 = 6 ∧
      (((regionTestMap.load 18).regions.get? (0 * 6 + 1)).map
          MapRegion.startPoint = some (1, 0)) ∧
      (((regionTestMap.load 18).region 18 20 0).map MapRegion.startPoint ≠
        some (1, 0)) ∧
      (((regionTestMap.load 18).regions.get? (1 * 6 + 0)).map
          MapRegion.startPoint = some (0, 1)) := by decide

/-- Helper: the per-point check of `sample_elevation` succeeds exactly
when the sampled tile exists and is within tolerance. -/
theorem sampleOk_iff (tol : Nat) (f : Floor) (elevation : Int)
    (p : Int × Int) :
    sampleOk tol f elevation p = true ↔
      ∃ t, f.tileAt p.1 p.2 = some t ∧
        (t.elevation - elevation).natAbs ≤ tol := by
  unfold sampleOk
  cases h : f.tileAt p.1 p.2 <;> simp [withinElevation]

/-- C2: `Map::sample_elevation(start, end, elevation)` returns `true`
when the Chebyshev distance is 0, and otherwise returns `true` iff
every one of the `distance` integer interpolation steps lands on an
existing tile whose elevation is within `ELEVATION_TOLERANCE` (`tol`)
of the player's; a missing or out-of-tolerance tile at any sampled
point gives `false`. -/
theorem c2_sample_elevation_spec (tol : Nat) (m : MapState)
    (start stop : Nat × Nat) (elevation : Int) :
    m.sampleElevation tol start stop elevation = true ↔
      (getDistance start stop = 0 ∨
        ∀ i < getDistance start stop,
          ∃ t, m.floor.tileAt
              (samplePoint start (delta start stop)
                (getDistance start stop) i).1
              (samplePoint start (delta start stop)
                (getDistance start stop) i).2 = some t ∧
            (t.elevation - elevation).natAbs ≤ tol) := by
  simp only [MapState.sampleElevation]
  by_cases h : getDistance start stop = 0
  · simp [h]
  · rw [if_neg h, List.all_eq_true]
    constructor
    · intro hall
      refine Or.inr (fun i hi => ?_)
      have := hall i (List.mem_range.mpr hi)
      exact (sampleOk_iff tol m.floor elevation _).mp this
    · rintro (h0 | hpts) i hi
      · exact absurd h0 h
      · exact (sampleOk_iff tol m.floor elevation _).mpr
          (hpts i (List.mem_range.mp hi))

/-- C3: `insert_character` always leaves the floor loaded; a
`remove_character` that leaves the character registry empty unloads the
floor and clears the region vector; and a `remove_character` that
leaves characters behind keeps a loaded floor loaded. -/
theorem c3_map_load_unload_invariant (S : Nat) (m : MapState)
    (me : Character) (id : Nat) :
    ((m.insertCharacter S me).loaded = true) ∧
      ((m.removeCharacter id).characters.isEmpty = true →
        (m.removeCharacter id).loaded = false ∧
          (m.removeCharacter id).regions = []) ∧
      (m.loaded = true → (m.removeCharacter id).characters.isEmpty = false →
        (m.removeCharacter id).loaded = true) := by
  refine ⟨?_, ?_, ?_⟩
  · by_cases h : m.floor.loaded = true
    · simp [MapState.insertCharacter, MapState.loaded, h]
    · simp [MapState.insertCharacter, MapState.loaded, MapState.load, h]
  · intro hemp
    by_cases h : (assocRemove id m.characters).isEmpty
    · simp [MapState.removeCharacter, h, MapState.unload, MapState.loaded]
    · simp [MapState.removeCharacter, h] at hemp
  · intro hl hemp
    unfold MapState.loaded at hl
    by_cases h : (assocRemove id m.characters).isEmpty
    · simp [MapState.removeCharacter, h, MapState.unload] at hemp
    · simp [MapState.removeCharacter, h, MapState.loaded, hl]

/-- A loaded one-character map for the C3 witness. -/
def c3TestMap : MapState :=
  { floor :=
      { loaded := true, width := 10, height := 10, tiles := fun _ _ => none },
    characters := [(5, { id := 5 })],
    regions := [MapRegion.new (0, 0)] }

/-- C3, witness: on the loaded one-character map, removing character 5
empties the registry, unloads the floor and clears the regions;
inserting a character leaves the floor loaded; and removing an absent
character from the still-populated map keeps it loaded. -/
theorem c3_map_load_unload_invariant_witness :
    ((c3TestMap.insertCharacter 18 { id := 7 }).loaded = true) ∧
      ((c3TestMap.removeCharacter 5).loaded = false ∧
        (c3TestMap.removeCharacter 5).regions = []) ∧
      (c3TestMap.removeCharacter 9).loaded = true :=
  ⟨(c3_map_load_unload_invariant 18 c3TestMap { id := 7 } 5).1,
   (c3_map_load_unload_invariant 18 c3TestMap { id := 7 } 5).2.1 (by decide),
   (c3_map_load_unload_invariant 18 c3TestMap { id := 7 } 9).2.2 (by decide)
     (by decide)⟩

/-- C10: the `character()`/`screen()` accessors invoked before the
corresponding setter has stored a value hit the `expect` panic
(modelled as `none`), while `try_character`/`try_screen` return
`Err(CharacterNotFound)`/`Err(ScreenNotFound)` in the same situation;
once the setter has run, the accessors return the stored value, so the
panic branch is unreachable. `init()` starts with both cells empty. -/
theorem c10_actor_state_accessors (s : ActorState) (c : Character)
    (sc : Screen) :
    (s.characterSlot = none →
      s.character = none ∧
        s.tryCharacter = Except.error StateError.characterNotFound) ∧
    (s.screenSlot = none →
      s.screen = none ∧
        s.tryScreen = Except.error StateError.screenNotFound) ∧
    ((s.setCharacter c).character = some c) ∧
    (∀ s', s.setScreen sc = some s' → s'.screen = some sc) ∧
    (ActorState.init.characterSlot = none ∧
      ActorState.init.screenSlot = none) := by
  refine ⟨?_, ?_, ?_, ?_, rfl, rfl⟩
  · intro h
    simp [ActorState.character, ActorState.tryCharacter, h]
  · intro h
    simp [ActorState.screen, ActorState.tryScreen, h]
  · simp [ActorState.setCharacter, ActorState.character]
  · intro s' h
    unfold ActorState.setScreen at h
    cases hc : s.characterSlot <;> rw [hc] at h
    · cases h
    · cases h
      simp [ActorState.screen]

/-- C10, witness: on the freshly initialised state both accessors are
in the panic state and both `try_` accessors return their errors; after
`set_character` and `set_screen` the accessors return the stored
values. -/
theorem c10_actor_state_accessors_witness :
    (ActorState.init.character = none ∧
      ActorState.init.tryCharacter =
        Except.error StateError.characterNotFound) ∧
    (ActorState.init.screen = none ∧
      ActorState.init.tryScreen = Except.error StateError.screenNotFound) ∧
    ((ActorState.init.setCharacter { id := 1 }).character =
      some { id := 1 }) ∧
    (∃ s', (ActorState.init.setCharacter { id := 1 }).setScreen
        { observers := [] } = some s' ∧
      s'.screen = some { observers := [] }) :=
  ⟨(c10_actor_state_accessors ActorState.init { id := 1 }
      { observers := [] }).1 rfl,
   (c10_actor_state_accessors ActorState.init { id := 1 }
      { observers := [] }).2.1 rfl,
   (c10_actor_state_accessors ActorState.init { id := 1 }
      { observers := [] }).2.2.1,
   ⟨{ characterSlot := some { id := 1 }, screenSlot := some { observers := [] } },
    rfl,
    (c10_actor_state_accessors (ActorState.init.setCharacter { id := 1 })
      { id := 1 } { observers := [] }).2.2.2.1 _ rfl⟩⟩

/-- Helper: `find?` for a key never finds anything in the list from
which that key's entries have been filtered out. -/
theorem find?_filter_ne (l : List (Nat × (Nat × Nat))) (t : Nat) :
    (l.filter (fun e => e.1 ≠ t)).find? (fun e => e.1 = t) = none := by
  induction l with
  | nil => rfl
  | cons a l ih =>
    by_cases h : a.1 = t <;> simp [List.filter_cons, h, List.find?_cons, ih]

/-- Helper: on a state whose token map has no entry for the packet's
token, registration fails with `register_invalid` and the consuming
removal returns nothing. -/
theorem retry_invalid (st' : GameState) (msg : MsgRegister) (rngA rngH : Nat)
    (h : st'.creationTokens.find? (fun e => e.1 = msg.token) = none) :
    (st'.removeCreationToken msg.token).1 = none ∧
      (msg.process rngA rngH st').2 =
        Except.error MsgTalkKind.registerInvalid := by
  constructor
  · simp [GameState.removeCreationToken, h]
  · have hpair : st'.removeCreationToken msg.token =
        (none, st'.withTokenRemoved msg.token) := by
      simp [GameState.removeCreationToken, h]
    simp only [MsgRegister.process, hpair]

/-- C4: processing a `MsgRegister` with a valid creation token, mesh
1003 and class 10: when the character name is free, the reply is
`MsgTalk(register_ok)` and exactly one character row is persisted, with
`strength = 4`, `agility = 6`, `vitality = 12`, `spirit = 0`,
`health_points = 318`, `silver = 1000`, `map_id = 1010`, `x = 61`,
`y = 109`; when the name is taken, the reply is
`MsgTalk(register_name_taken)` and nothing is persisted. -/
theorem c4_register_defaults (st : GameState) (msg : MsgRegister)
    (rngA rngH aid rid : Nat)
    (htok : (st.removeCreationToken msg.token).1 = some (aid, rid))
    (hmesh : msg.mesh = 1003) (hclass : msg.charClass = 10)
    (hmap : st.maps.contains 1010 = true) :
    (st.nameTaken msg.characterName = false →
      (msg.process rngA rngH st).2 = Except.ok MsgTalkKind.registerOk ∧
      ∃ c, (msg.process rngA rngH st).1.saved = st.saved ++ [c] ∧
        c.name = msg.characterName ∧ c.accountId = aid ∧ c.realmId = rid ∧
        c.strength = 4 ∧ c.agility = 6 ∧ c.vitality = 12 ∧ c.spirit = 0 ∧
        c.healthPoints = 318 ∧ c.silver = 1000 ∧ c.mapId = 1010 ∧
        c.x = 61 ∧ c.y = 109) ∧
    (st.nameTaken msg.characterName = true →
      (msg.process rngA rngH st).2 =
        Except.error MsgTalkKind.registerNameTaken ∧
      (msg.process rngA rngH st).1.saved = st.saved) := by
  have hpair : st.removeCreationToken msg.token =
      (some (aid, rid),
        { st with creationTokens :=
            st.creationTokens.filter (fun e => e.1 ≠ msg.token) }) := by
    rw [← htok]
    exact rfl
  constructor
  · intro hname
    simp only [GameState.nameTaken] at hname
    simp only [MsgRegister.process, hpair, GameState.nameTaken,
      GameState.save, hname, hmesh, hclass, bodyTypeValid, baseClassValid,
      MsgRegister.buildCharacter]
    simp only [hmap, eq_self_iff_true, if_true]
    exact ⟨rfl, _, rfl, rfl, rfl, rfl, rfl, rfl, rfl, rfl, rfl, rfl, rfl,
      rfl, rfl⟩
  · intro hname
    simp only [GameState.nameTaken] at hname
    simp only [MsgRegister.process, hpair, GameState.nameTaken, hname]
    simp

/-- A state holding the creation token 77 for account 3 on realm 9,
an empty database and the maps registry containing map 1010. -/
def c4StateFree : GameState :=
  { creationTokens := [(77, (3, 9))], takenNames := [], saved := [],
    maps := [1010] }

/-- The same state except that the name `Alice` is already taken. -/
def c4StateTaken : GameState :=
  { creationTokens := [(77, (3, 9))], takenNames := ["Alice"], saved := [],
    maps := [1010] }

/-- A registration packet for the name `Alice` with mesh 1003,
class 10 and token 77. -/
def c4Msg : MsgRegister :=
  { username := "user", characterName := "Alice", password := [],
    mesh := 1003, charClass := 10, token := 77 }

/-- C4, witness: on the free-name state the registration persists the
default-stats character and replies `register_ok`; on the taken-name
state it replies `register_name_taken` and persists nothing. -/
theorem c4_register_defaults_witness :
    ((c4Msg.process 5 300 c4StateFree).2 = Except.ok MsgTalkKind.registerOk ∧
      ∃ c, (c4Msg.process 5 300 c4StateFree).1.saved =
          c4StateFree.saved ++ [c] ∧
        c.name = c4Msg.characterName ∧ c.accountId = 3 ∧ c.realmId = 9 ∧
        c.strength = 4 ∧ c.agility = 6 ∧ c.vitality = 12 ∧ c.spirit = 0 ∧
        c.healthPoints = 318 ∧ c.silver = 1000 ∧ c.mapId = 1010 ∧
        c.x = 61 ∧ c.y = 109) ∧
    ((c4Msg.process 5 300 c4StateTaken).2 =
        Except.error MsgTalkKind.registerNameTaken ∧
      (c4Msg.process 5 300 c4StateTaken).1.saved = c4StateTaken.saved) :=
  ⟨(c4_register_defaults c4StateFree c4Msg 5 300 3 9 (by decide) rfl rfl
      (by decide)).1 (by decide),
   (c4_register_defaults c4StateTaken c4Msg 5 300 3 9 (by decide) rfl rfl
      (by decide)).2 (by decide)⟩

/-- C9: when registration fails after the creation token was looked up
successfully — taken name, invalid mesh or invalid class — the token
has been consumed: the outcome is an error packet, the token is gone
from the resulting state's token map, and a retry of the same packet on
that state is rejected as `register_invalid`. -/
theorem c9_token_consumed_on_failure (st : GameState) (msg : MsgRegister)
    (rngA rngH aid rid : Nat)
    (htok : (st.removeCreationToken msg.token).1 = some (aid, rid))
    (hfail : st.nameTaken msg.characterName = true ∨
      bodyTypeValid msg.mesh = false ∨ baseClassValid msg.charClass = false) :
    (∃ e, (msg.process rngA rngH st).2 = Except.error e) ∧
      ((msg.process rngA rngH st).1.removeCreationToken msg.token).1 = none ∧
      (msg.process rngA rngH ((msg.process rngA rngH st).1)).2 =
        Except.error MsgTalkKind.registerInvalid := by
  have hpair : st.removeCreationToken msg.token =
      (some (aid, rid), st.withTokenRemoved msg.token) := by
    rw [← htok]
    exact rfl
  have hretry := retry_invalid (st.withTokenRemoved msg.token) msg rngA rngH
    (find?_filter_ne st.creationTokens msg.token)
  simp only [GameState.nameTaken] at hfail
  cases hn : st.takenNames.contains msg.characterName with
  | true =>
    have hn' : msg.characterName ∈ st.takenNames := by simpa using hn
    have hres : msg.process rngA rngH st =
        (st.withTokenRemoved msg.token,
          Except.error MsgTalkKind.registerNameTaken) := by
      simp [MsgRegister.process, hpair, GameState.nameTaken,
        GameState.withTokenRemoved, hn']
    exact ⟨⟨_, by rw [hres]⟩, by rw [hres]; exact hretry.1,
      by rw [hres]; exact hretry.2⟩
  | false =>
    cases hb : bodyTypeValid msg.mesh with
    | false =>
      have hn' : msg.characterName ∉ st.takenNames := by simpa using hn
      have hres : msg.process rngA rngH st =
          (st.withTokenRemoved msg.token,
            Except.error MsgTalkKind.registerInvalid) := by
        simp [MsgRegister.process, hpair, GameState.nameTaken,
          GameState.withTokenRemoved, hn', hb]
      exact ⟨⟨_, by rw [hres]⟩, by rw [hres]; exact hretry.1,
        by rw [hres]; exact hretry.2⟩
    | true =>
      cases hc : baseClassValid msg.charClass with
      | false =>
        have hn' : msg.characterName ∉ st.takenNames := by simpa using hn
        have hres : msg.process rngA rngH st =
            (st.withTokenRemoved msg.token,
              Except.error MsgTalkKind.registerInvalid) := by
          simp [MsgRegister.process, hpair, GameState.nameTaken,
            GameState.withTokenRemoved, hn', hb, hc]
        exact ⟨⟨_, by rw [hres]⟩, by rw [hres]; exact hretry.1,
          by rw [hres]; exact hretry.2⟩
      | true =>
        rcases hfail with h | h | h
        · rw [hn] at h
          exact Bool.noConfusion h
        · rw [hb] at h
          exact Bool.noConfusion h
        · rw [hc] at h
          exact Bool.noConfusion h

/-- A state holding the creation token 42 for account 8 on realm 1,
where the name `Bob` is already taken. -/
def c9State : GameState :=
  { creationTokens := [(42, (8, 1))], takenNames := ["Bob"], saved := [],
    maps := [1010] }

/-- A registration packet for the taken name `Bob` with token 42. -/
def c9Msg : MsgRegister :=
  { username := "u", characterName := "Bob", password := [], mesh := 1003,
    charClass := 10, token := 42 }

/-- C9, witness: the failed registration of the taken name `Bob`
consumed token 42 — the attempt errors, the token is no longer
removable, and the retry is rejected as invalid. -/
theorem c9_token_consumed_on_failure_witness :
    (∃ e, (c9Msg.process 0 0 c9State).2 = Except.error e) ∧
      ((c9Msg.process 0 0 c9State).1.removeCreationToken c9Msg.token).1 =
        none ∧
      (c9Msg.process 0 0 ((c9Msg.process 0 0 c9State).1)).2 =
        Except.error MsgTalkKind.registerInvalid :=
  c9_token_consumed_on_failure c9State c9Msg 0 0 8 1 (by decide)
    (Or.inl (by decide))

end Coemu
